import Mathlib

/-!
Shallow embedding of the tutoring backend (Express HTTP server variants:
`src/server.js`, `src/unnamed/part_000` (two variants), `src/unnamed/part_001`)
and proofs about its request handlers: the explanation cache, the lesson
generation endpoint, and the text-to-speech fallback logic.  External
collaborators (the generative-content provider, the JSON parser of the runtime,
the two TTS providers) are modelled as function-valued environment parameters;
all routing, validation, caching and error-dispatch logic is translated from
the source.
-/

set_option autoImplicit false

namespace TutorApi

/-- JS truthiness test for an optional string field of a JSON request body:
an absent field and the empty string are falsy (`!subject` in the source). -/
def falsy : Option String → Bool
  | none => true
  | some s => s = ""

/-- Model of JavaScript `String.prototype.toLowerCase()` as the character-wise
case mapping over the string's characters. -/
def toLowerCase (s : String) : String := String.mk (s.data.map Char.toLower)

/-- Lookup in a JS `Map` modelled as an association list: first binding with
the given key (`Map.prototype.get` / `has`). -/
def mapGet {α : Type} : List (String × α) → String → Option α
  | [], _ => none
  | (k', v) :: rest, k => if k' = k then some v else mapGet rest k

/-- JS `Map.prototype.set`: replace the value of an existing key in place,
otherwise append the new binding at the end. -/
def mapSet {α : Type} : List (String × α) → String → α → List (String × α)
  | [], k, v => [(k, v)]
  | (k', v') :: rest, k, v =>
      if k' = k then (k, v) :: rest else (k', v') :: mapSet rest k v

/-- A cache is well-formed when no key occurs twice (the `Map` guarantee). -/
def keysNodup {α : Type} (m : List (String × α)) : Prop :=
  (m.map Prod.fst).Nodup

/-! ### The explain-concept endpoint (`src/unnamed/part_001`, lines 218-275) -/

/-- Body of a `POST /api/gamification/explain-concept` request; each field is
`none` when absent from the JSON body. -/
structure ExplainReq where
  subject : Option String
  topic : Option String
  subtopic : Option String
  context : Option String
  deriving DecidableEq, Repr

/-- Destructuring default `context = "simulation"`: the default applies only
when the field is absent. -/
def contextVal (r : ExplainReq) : String := r.context.getD "simulation"

/-- Cache key: template-literal join of the four fields with `:` separators,
then lowercased (source line 228). -/
def cacheKeyOf (subject topic subtopic ctx : String) : String :=
  toLowerCase (subject ++ ":" ++ topic ++ ":" ++ subtopic ++ ":" ++ ctx)

/-- Cache key computed from a request's destructured fields. -/
def requestKey (r : ExplainReq) : String :=
  cacheKeyOf (r.subject.getD "") (r.topic.getD "") (r.subtopic.getD "")
    (contextVal r)

/-- User prompt assembled by the handler for the generation provider
(source lines 241-250). -/
def explainPrompt (subject topic subtopic ctx : String) : String :=
  "\n      Subject: " ++ subject ++
  "\n      Topic: " ++ topic ++
  "\n      Subtopic: " ++ subtopic ++
  "\n      Context: " ++ ctx ++
  "\n\n      Please provide a detailed explanation with step-by-step breakdown.\n      If it\x27s a science or math topic, ensure mathematical rigor and use LaTeX.\n      If it\x27s a theoretical concept, break down the process or mechanism clearly.\n    "

/-- Prompt of a given request. -/
def explainPromptOf (r : ExplainReq) : String :=
  explainPrompt (r.subject.getD "") (r.topic.getD "") (r.subtopic.getD "")
    (contextVal r)

/-- External collaborators of the explain-concept handler: the generation
provider (`model.generateContent` followed by `response.text()`, which may
throw) and the runtime JSON parser (`JSON.parse`, which may throw); `α` is the
type of parsed explanation payloads. -/
structure ExplainEnv (α : Type) where
  generate : String → Except String String
  parse : String → Except String α

/-- HTTP response of the explain-concept handler. -/
inductive ExplainResp (α : Type) where
  /-- 400 with body fields `error` and `message` (source lines 221-226). -/
  | badRequest (error message : String)
  /-- 200 with the explanation payload. -/
  | ok (payload : α)
  /-- 500 with body fields `error` and `message` (source lines 268-274). -/
  | genFailed (error message : String)
  deriving DecidableEq, Repr

/-- Result of one handler run: response sent, cache state afterwards, and the
number of provider calls performed. -/
structure ExplainResult (α : Type) where
  resp : ExplainResp α
  cache : List (String × α)
  providerCalls : Nat
  deriving DecidableEq, Repr

/-- The `POST /api/gamification/explain-concept` handler
(`src/unnamed/part_001`, lines 218-275): validate required fields, compute the
cache key, return the cached payload on hit, otherwise call the provider,
parse, store under the key and respond; provider or parse failure is caught
and sent as a 500 without touching the cache. -/
def handleExplainConcept {α : Type} (env : ExplainEnv α)
    (cache : List (String × α)) (r : ExplainReq) : ExplainResult α :=
  if falsy r.subject || falsy r.topic || falsy r.subtopic then
    ⟨.badRequest "Invalid request"
      "subject, topic, and subtopic are required fields.", cache, 0⟩
  else
    match mapGet cache (requestKey r) with
    | some v => ⟨.ok v, cache, 0⟩
    | none =>
        match env.generate (explainPromptOf r) with
        | .error msg => ⟨.genFailed "AI generation failed" msg, cache, 1⟩
        | .ok text =>
            match env.parse text with
            | .error msg => ⟨.genFailed "AI generation failed" msg, cache, 1⟩
            | .ok payload =>
                ⟨.ok payload, mapSet cache (requestKey r) payload, 1⟩

/-- Cache state after the server handles a sequence of explain-concept
requests, one at a time. -/
def processTrace {α : Type} (env : ExplainEnv α) :
    List (String × α) → List ExplainReq → List (String × α)
  | cache, [] => cache
  | cache, r :: rest =>
      processTrace env (handleExplainConcept env cache r).cache rest

/-! ### Association-list lemmas -/

theorem mapGet_mapSet_self {α : Type} (m : List (String × α)) (k : String)
    (v : α) : mapGet (mapSet m k v) k = some v := by
  induction m with
  | nil => simp [mapSet, mapGet]
  | cons p rest ih =>
      obtain ⟨k', v'⟩ := p
      by_cases h : k' = k <;> simp [mapSet, mapGet, h, ih]

theorem mapGet_mapSet_ne {α : Type} (m : List (String × α)) (k k' : String)
    (v : α) (h : k' ≠ k) : mapGet (mapSet m k v) k' = mapGet m k' := by
  induction m with
  | nil => simp [mapSet, mapGet, Ne.symm h]
  | cons p rest ih =>
      obtain ⟨k₀, v₀⟩ := p
      by_cases h0 : k₀ = k
      · subst h0
        simp [mapSet, mapGet, Ne.symm h]
      · simp [mapSet, mapGet, h0, ih]

theorem mem_keys_mapSet {α : Type} (m : List (String × α)) (k x : String)
    (v : α) (h : x ∈ (mapSet m k v).map Prod.fst) :
    x ∈ m.map Prod.fst ∨ x = k := by
  induction m with
  | nil => simpa [mapSet] using h
  | cons p rest ih =>
      obtain ⟨k₀, v₀⟩ := p
      by_cases h0 : k₀ = k
      · subst h0
        exact Or.inl (by simpa [mapSet] using h)
      · simp only [mapSet, h0, if_false, List.map_cons, List.mem_cons] at h
        rcases h with h | h
        · exact Or.inl (by simp [h])
        · rcases ih h with h' | h'
          · exact Or.inl (by simp [h'])
          · exact Or.inr h'

theorem keysNodup_mapSet {α : Type} (m : List (String × α)) (k : String)
    (v : α) (h : keysNodup m) : keysNodup (mapSet m k v) := by
  induction m with
  | nil => simp [mapSet, keysNodup]
  | cons p rest ih =>
      obtain ⟨k₀, v₀⟩ := p
      simp only [keysNodup, List.map_cons, List.nodup_cons] at h
      by_cases h0 : k₀ = k
      · subst h0
        simpa [mapSet, keysNodup] using h
      · simp only [keysNodup, mapSet, h0, if_false, List.map_cons,
          List.nodup_cons]
        refine ⟨fun hmem => ?_, ih h.2⟩
        rcases mem_keys_mapSet rest k k₀ v hmem with h' | h'
        · exact h.1 h'
        · exact h0 h'

/-! ### Per-request cache preservation -/

theorem handleExplain_cache_preserves {α : Type} (env : ExplainEnv α)
    (cache : List (String × α)) (r : ExplainReq) (k : String) (v : α)
    (h : mapGet cache k = some v) :
    mapGet (handleExplainConcept env cache r).cache k = some v := by
  unfold handleExplainConcept
  split
  · exact h
  · split
    · exact h
    · rename_i hmiss
      split
      · exact h
      · split
        · exact h
        · have hne : k ≠ requestKey r := by
            intro he
            rw [he, hmiss] at h
            exact Option.noConfusion h
          simpa [mapGet_mapSet_ne _ _ _ _ hne] using h

theorem handleExplain_keysNodup {α : Type} (env : ExplainEnv α)
    (cache : List (String × α)) (r : ExplainReq) (h : keysNodup cache) :
    keysNodup (handleExplainConcept env cache r).cache := by
  unfold handleExplainConcept
  split
  · exact h
  · split
    · exact h
    · split
      · exact h
      · split
        · exact h
        · exact keysNodup_mapSet _ _ _ h

/-! ### Lowercasing lemmas -/

theorem toLowerCase_append (a b : String) :
    toLowerCase (a ++ b) = toLowerCase a ++ toLowerCase b := by
  cases a with
  | mk da =>
      cases b with
      | mk db =>
          show String.mk ((da ++ db).map Char.toLower) =
            String.mk (da.map Char.toLower ++ db.map Char.toLower)
          exact congrArg String.mk (List.map_append Char.toLower da db)

theorem toLowerCase_colon : toLowerCase ":" = ":" := rfl

theorem cacheKeyOf_eq (s t u c : String) :
    cacheKeyOf s t u c =
      toLowerCase s ++ ":" ++ toLowerCase t ++ ":" ++ toLowerCase u ++ ":" ++
        toLowerCase c := by
  simp only [cacheKeyOf, toLowerCase_append, toLowerCase_colon]

/-! ### The lesson endpoint

Three variants exist in the repository: `src/server.js` lines 128-183 (no
request validation, single catch), `src/unnamed/part_000` first variant lines
145-210 (validation plus a dedicated parse-failure branch), and
`src/unnamed/part_001` lines 123-172 (no validation, single catch without a
fallback lesson in the body). -/

/-- One element of the `files` array of a lesson request body. -/
structure FileAttachment where
  data : String
  type : String
  deriving DecidableEq, Repr

/-- Body of a `POST /api/lesson` request; fields are `none` when absent. -/
structure LessonReq where
  prompt : Option String
  files : Option (List FileAttachment)
  deriving DecidableEq, Repr

/-- One part of the multi-part message sent to the generation provider. -/
inductive Part where
  | text (s : String)
  | inlineData (data mimeType : String)
  deriving DecidableEq, Repr

/-- Parts assembled by the lesson handlers: the prompt (or, when the prompt is
falsy, a handler-specific default text) followed by one inline-data part per
attached file when `files` is present and non-empty. -/
def lessonParts (defaultText : String) (r : LessonReq) : List Part :=
  Part.text (if falsy r.prompt then defaultText else r.prompt.getD "") ::
    (match r.files with
     | none => []
     | some fs =>
         if fs.length > 0 then
           fs.map (fun f => Part.inlineData f.data f.type)
         else [])

/-- Default prompt text of `src/server.js` line 141 and
`src/unnamed/part_000` line 160. -/
def serverDefaultPrompt : String := "Explain the following STEM concept."

/-- Default prompt text of `src/unnamed/part_001` line 140. -/
def part001DefaultPrompt : String := "Solve the problem shown."

/-- External collaborators of the lesson handlers: the generation provider
(which consumes the assembled parts) and the runtime JSON parser. -/
structure LessonEnv (α : Type) where
  generate : List Part → Except String String
  parse : String → Except String α

/-- One step of the canned fallback lesson. -/
structure FallbackStep where
  id : String
  action : String
  content : String
  position : String
  deriving DecidableEq, Repr

/-- The fixed single-step fallback lesson of `src/server.js` lines 173-180
and `src/unnamed/part_000` lines 200-207. -/
def fallbackLesson : List FallbackStep :=
  [⟨"error1", "write",
    "Sorry, I couldn\x27t generate this lesson. Please try again.", "center"⟩]

/-- HTTP response of a lesson handler. -/
inductive LessonResp (α : Type) where
  /-- 400 with an `error` body field. -/
  | badRequest (error : String)
  /-- 200 with the parsed lesson payload. -/
  | ok (payload : α)
  /-- 500 with body fields `error`, `details` and `fallbackLesson`. -/
  | errFallback (error details : String) (fb : List FallbackStep)
  /-- 500 with body fields `error`, `details` and `rawResponse`. -/
  | errFormat (error details rawResponse : String)
  /-- 500 with body fields `error` and `details` only. -/
  | errPlain (error details : String)
  deriving DecidableEq, Repr

/-- The `POST /api/lesson` handler of `src/server.js` lines 128-183: no
request validation; `JSON.parse` runs inside the same try block as the
provider call, so a parse failure lands in the one catch and produces the
generic fallback response. -/
def handleLesson_server {α : Type} (env : LessonEnv α) (r : LessonReq) :
    LessonResp α × Nat :=
  match env.generate (lessonParts serverDefaultPrompt r) with
  | .error msg =>
      (.errFallback "Failed to generate lesson" msg fallbackLesson, 1)
  | .ok text =>
      match env.parse text with
      | .error msg =>
          (.errFallback "Failed to generate lesson" msg fallbackLesson, 1)
      | .ok p => (.ok p, 1)

/-- Emptiness test of `src/unnamed/part_000` line 148:
`!prompt && (!files || files.length === 0)`. -/
def lessonReqEmpty (r : LessonReq) : Bool :=
  falsy r.prompt &&
    (match r.files with
     | none => true
     | some fs => fs.length = 0)

/-- The `POST /api/lesson` handler of `src/unnamed/part_000` (first variant)
lines 145-210: rejects empty requests with a 400, and distinguishes a parse
failure (500 with `rawResponse`) from a provider failure (500 with the
fallback lesson) via a nested try block. -/
def handleLesson_part000 {α : Type} (env : LessonEnv α) (r : LessonReq) :
    LessonResp α × Nat :=
  if lessonReqEmpty r then
    (.badRequest "Either prompt or files must be provided", 0)
  else
    match env.generate (lessonParts serverDefaultPrompt r) with
    | .error msg =>
        (.errFallback "Failed to generate lesson" msg fallbackLesson, 1)
    | .ok text =>
        match env.parse text with
        | .error msg =>
            (.errFormat "Invalid response format from AI model" msg text, 1)
        | .ok p => (.ok p, 1)

/-- The `POST /api/lesson` handler of `src/unnamed/part_001` lines 123-172:
no validation, one catch, and the 500 body carries only `error` and
`details` (no fallback lesson). -/
def handleLesson_part001 {α : Type} (env : LessonEnv α) (r : LessonReq) :
    LessonResp α × Nat :=
  match env.generate (lessonParts part001DefaultPrompt r) with
  | .error msg => (.errPlain "Failed to generate lesson" msg, 1)
  | .ok text =>
      match env.parse text with
      | .error msg => (.errPlain "Failed to generate lesson" msg, 1)
      | .ok p => (.ok p, 1)

/-! ### The text-to-speech endpoint

`src/server.js` lines 185-216, `src/unnamed/part_000` first variant lines
213-245 and `src/unnamed/part_001` lines 179-216 guard the fallback path with
an inner try block; the second variant in `src/unnamed/part_000` (lines
330-349) does not. -/

/-- Timeout raced against the primary synthesis call (milliseconds). -/
def ttsTimeoutMs : Nat := 7000

/-- Outcome of racing `tts.synthesize()` against the timeout rejection:
either synthesis settles first with an audio buffer, or it settles first with
an error, or the timer fires first. -/
inductive PrimaryOutcome where
  | synthesized (buf : List Nat)
  | failure (msg : String)
  | timedOut
  deriving DecidableEq, Repr

/-- External collaborators of the TTS handlers: the primary neural provider
(already raced against the timeout) and the secondary fallback provider,
whose synchronous failure is an exception. -/
structure TtsEnv where
  primary : String → PrimaryOutcome
  fallback : String → Except String (List Nat)

/-- HTTP response of a TTS handler. -/
inductive TtsResp where
  /-- 400 with a plain-text body. -/
  | badRequest (body : String)
  /-- 200 primary audio buffer, with Content-Type and Content-Length set. -/
  | audioSuccess (contentType : String) (contentLength : Nat) (buf : List Nat)
  /-- 200 fallback audio stream, with Content-Type set (no length). -/
  | audioStream (contentType : String) (buf : List Nat)
  /-- 500 with a plain-text body. -/
  | failed (body : String)
  deriving DecidableEq, Repr

/-- Result of one TTS handler run: response and how many times each provider
was invoked. -/
structure TtsResult where
  resp : TtsResp
  primaryCalls : Nat
  fallbackCalls : Nat
  deriving DecidableEq, Repr

/-- The `GET /api/tts` handler of `src/server.js` lines 185-216: missing or
empty `text` is rejected with a 400; primary success streams the buffer; on
primary failure or timeout the guarded fallback path either streams the
secondary audio or answers 500 `TTS failed`. -/
def handleTts_server (env : TtsEnv) (text : Option String) : TtsResult :=
  match text with
  | none => ⟨.badRequest "No text provided", 0, 0⟩
  | some t =>
      if t = "" then ⟨.badRequest "No text provided", 0, 0⟩
      else
        match env.primary t with
        | .synthesized buf =>
            ⟨.audioSuccess "audio/mpeg" buf.length buf, 1, 0⟩
        | .failure _ =>
            match env.fallback t with
            | .ok buf => ⟨.audioStream "audio/mpeg" buf, 1, 1⟩
            | .error _ => ⟨.failed "TTS failed", 1, 1⟩
        | .timedOut =>
            match env.fallback t with
            | .ok buf => ⟨.audioStream "audio/mpeg" buf, 1, 1⟩
            | .error _ => ⟨.failed "TTS failed", 1, 1⟩

/-- Result of one run of the unguarded variant: `resp = none` models an
exception escaping the handler, so no response is sent. -/
structure TtsResultB where
  resp : Option TtsResp
  primaryCalls : Nat
  fallbackCalls : Nat
  deriving DecidableEq, Repr

/-- The `GET /api/tts` handler of the second variant in
`src/unnamed/part_000` (lines 330-349): the catch block runs the fallback
without an inner try, so a fallback failure escapes unhandled and no
response is produced. -/
def handleTts_part000b (env : TtsEnv) (text : Option String) : TtsResultB :=
  match text with
  | none => ⟨some (.badRequest "No text provided"), 0, 0⟩
  | some t =>
      if t = "" then ⟨some (.badRequest "No text provided"), 0, 0⟩
      else
        match env.primary t with
        | .synthesized buf =>
            ⟨some (.audioSuccess "audio/mpeg" buf.length buf), 1, 0⟩
        | .failure _ =>
            match env.fallback t with
            | .ok buf => ⟨some (.audioStream "audio/mpeg" buf), 1, 1⟩
            | .error _ => ⟨none, 1, 1⟩
        | .timedOut =>
            match env.fallback t with
            | .ok buf => ⟨some (.audioStream "audio/mpeg" buf), 1, 1⟩
            | .error _ => ⟨none, 1, 1⟩

/-! ### Concrete instances used by witnesses and counterexamples -/

def envW : ExplainEnv Nat := ⟨fun _ => .ok "payload", fun _ => .ok 7⟩

def envFailW : ExplainEnv Nat := ⟨fun _ => .error "boom", fun _ => .ok 0⟩

def reqW : ExplainReq := ⟨some "Math", some "Algebra", some "Linear Eq", none⟩

def reqLowerW : ExplainReq :=
  ⟨some "math", some "algebra", some "linear eq", none⟩

def keyW : String := "math:algebra:linear eq:simulation"

def lessonEnvOk : LessonEnv Nat := ⟨fun _ => .ok "ok", fun _ => .ok 7⟩

def lessonEnvFail : LessonEnv Nat := ⟨fun _ => .error "boom", fun _ => .ok 0⟩

def lessonEnvBadParse : LessonEnv Nat :=
  ⟨fun _ => .ok "not json", fun _ => .error "Unexpected token"⟩

def ttsEnvTimedOut : TtsEnv := ⟨fun _ => .timedOut, fun _ => .ok [1, 2, 3]⟩

def ttsEnvBothFail : TtsEnv :=
  ⟨fun _ => .failure "neural down", fun _ => .error "gtts down"⟩

/-! ### Claims about the explain-concept endpoint -/

/-- Claim C1: for a `POST /api/gamification/explain-concept` call repeated
twice with identical (subject, topic, subtopic, context) fields, where the
first call misses the cache and the provider output parses, the first call
stores the parsed payload under the request key and the second call returns
exactly that stored payload with no further provider call, so the provider
is called once over the two runs. -/
theorem C1_explain_cache_hit {α : Type} (env : ExplainEnv α)
    (cache : List (String × α)) (r : ExplainReq) (t : String) (p : α)
    (hs : falsy r.subject = false) (ht : falsy r.topic = false)
    (hu : falsy r.subtopic = false)
    (hmiss : mapGet cache (requestKey r) = none)
    (hgen : env.generate (explainPromptOf r) = .ok t)
    (hparse : env.parse t = .ok p) :
    handleExplainConcept env cache r =
        ⟨.ok p, mapSet cache (requestKey r) p, 1⟩ ∧
      mapGet (mapSet cache (requestKey r) p) (requestKey r) = some p ∧
      handleExplainConcept env (mapSet cache (requestKey r) p) r =
        ⟨.ok p, mapSet cache (requestKey r) p, 0⟩ ∧
      (handleExplainConcept env cache r).providerCalls +
        (handleExplainConcept env (handleExplainConcept env cache r).cache
          r).providerCalls = 1 := by
  have h1 : handleExplainConcept env cache r =
      ⟨.ok p, mapSet cache (requestKey r) p, 1⟩ := by
    simp [handleExplainConcept, hs, ht, hu, hmiss, hgen, hparse]
  have h2 : handleExplainConcept env (mapSet cache (requestKey r) p) r =
      ⟨.ok p, mapSet cache (requestKey r) p, 0⟩ := by
    simp [handleExplainConcept, hs, ht, hu, mapGet_mapSet_self]
  refine ⟨h1, mapGet_mapSet_self cache (requestKey r) p, h2, ?_⟩
  simp [h1, h2]

/-- Witness for C1 at a concrete environment and request. -/
theorem C1_explain_cache_hit_witness :
    handleExplainConcept envW [] reqW =
        ⟨.ok 7, mapSet [] (requestKey reqW) 7, 1⟩ ∧
      mapGet (mapSet [] (requestKey reqW) 7) (requestKey reqW) = some 7 ∧
      handleExplainConcept envW (mapSet [] (requestKey reqW) 7) reqW =
        ⟨.ok 7, mapSet [] (requestKey reqW) 7, 0⟩ ∧
      (handleExplainConcept envW [] reqW).providerCalls +
        (handleExplainConcept envW (handleExplainConcept envW [] reqW).cache
          reqW).providerCalls = 1 :=
  C1_explain_cache_hit envW [] reqW "payload" 7 rfl rfl rfl rfl rfl rfl

/-- Claim C2: the explanation cache key is case-insensitive: two requests
whose resolved (subject, topic, subtopic, context) fields agree up to letter
case produce the same key string and therefore address the same cache
entry. -/
theorem C2_cache_key_case_insensitive {α : Type} (cache : List (String × α))
    (r₁ r₂ : ExplainReq)
    (hs : toLowerCase (r₁.subject.getD "") = toLowerCase (r₂.subject.getD ""))
    (ht : toLowerCase (r₁.topic.getD "") = toLowerCase (r₂.topic.getD ""))
    (hu : toLowerCase (r₁.subtopic.getD "") =
      toLowerCase (r₂.subtopic.getD ""))
    (hc : toLowerCase (contextVal r₁) = toLowerCase (contextVal r₂)) :
    requestKey r₁ = requestKey r₂ ∧
      mapGet cache (requestKey r₁) = mapGet cache (requestKey r₂) := by
  have hkey : requestKey r₁ = requestKey r₂ := by
    simp only [requestKey, cacheKeyOf_eq, hs, ht, hu, hc]
  exact ⟨hkey, by rw [hkey]⟩

/-- Witness for C2 at the spec's example pair of requests. -/
theorem C2_cache_key_case_insensitive_witness :
    requestKey reqW = requestKey reqLowerW ∧
      mapGet ([(keyW, 7)] : List (String × Nat)) (requestKey reqW) =
        mapGet [(keyW, 7)] (requestKey reqLowerW) :=
  C2_cache_key_case_insensitive [(keyW, 7)] reqW reqLowerW
    (by decide) (by decide) (by decide) (by decide)

/-- Claim C3: an explain-concept request in which subject, topic, or subtopic
is missing gets the 400 invalid-request response, the cache is untouched and
the provider is not called. -/
theorem C3_missing_field_bad_request {α : Type} (env : ExplainEnv α)
    (cache : List (String × α)) (r : ExplainReq)
    (h : r.subject = none ∨ r.topic = none ∨ r.subtopic = none) :
    handleExplainConcept env cache r =
      ⟨.badRequest "Invalid request"
        "subject, topic, and subtopic are required fields.", cache, 0⟩ := by
  have hcond : (falsy r.subject || falsy r.topic || falsy r.subtopic) = true := by
    rcases h with h | h | h <;> simp [h, falsy]
  simp [handleExplainConcept, hcond]

/-- Witness for C3 at a request with no subject. -/
theorem C3_missing_field_bad_request_witness :
    handleExplainConcept envW [] ⟨none, some "Algebra", some "Linear Eq", none⟩ =
      ⟨.badRequest "Invalid request"
        "subject, topic, and subtopic are required fields.", [], 0⟩ :=
  C3_missing_field_bad_request envW []
    ⟨none, some "Algebra", some "Linear Eq", none⟩ (Or.inl rfl)

/-- Claim C9: the explanation cache keeps at most one entry per key, no
request removes or expires an entry, an existing binding survives any
sequence of handled requests with its value unchanged, and a request whose
key is already bound reads that value back without modifying the cache. -/
theorem C9_cache_invariant {α : Type} (env : ExplainEnv α)
    (cache : List (String × α)) (reqs : List ExplainReq) (k : String) (v : α)
    (rHit : ExplainReq)
    (hwf : keysNodup cache) (hk : mapGet cache k = some v)
    (hs : falsy rHit.subject = false) (ht : falsy rHit.topic = false)
    (hu : falsy rHit.subtopic = false) (hkey : requestKey rHit = k) :
    keysNodup (processTrace env cache reqs) ∧
      mapGet (processTrace env cache reqs) k = some v ∧
      handleExplainConcept env (processTrace env cache reqs) rHit =
        ⟨.ok v, processTrace env cache reqs, 0⟩ := by
  have hmain : keysNodup (processTrace env cache reqs) ∧
      mapGet (processTrace env cache reqs) k = some v := by
    induction reqs generalizing cache with
    | nil => exact ⟨hwf, hk⟩
    | cons r rest ih =>
        exact ih _ (handleExplain_keysNodup env cache r hwf)
          (handleExplain_cache_preserves env cache r k v hk)
  refine ⟨hmain.1, hmain.2, ?_⟩
  have hget : mapGet (processTrace env cache reqs) (requestKey rHit) = some v := by
    rw [hkey]; exact hmain.2
  simp [handleExplainConcept, hs, ht, hu, hget]

/-- Witness for C9: a one-entry cache, one handled request, and a hit. -/
theorem C9_cache_invariant_witness :
    keysNodup (processTrace envW [(keyW, 7)] [reqW]) ∧
      mapGet (processTrace envW [(keyW, 7)] [reqW]) keyW = some 7 ∧
      handleExplainConcept envW (processTrace envW [(keyW, 7)] [reqW]) reqW =
        ⟨.ok 7, processTrace envW [(keyW, 7)] [reqW], 0⟩ :=
  C9_cache_invariant envW [(keyW, 7)] [reqW] keyW 7 reqW
    (by simp [keysNodup]) rfl rfl rfl rfl (by decide)

/-- Claim C10: on an explain-concept cache miss where the provider call fails
or its output fails to parse, the handler answers with the 500 generation
failure, the cache is left unchanged, and the request key is still unbound,
so a later identical request again takes the miss path. -/
theorem C10_failure_leaves_cache {α : Type} (env : ExplainEnv α)
    (cache : List (String × α)) (r : ExplainReq)
    (hs : falsy r.subject = false) (ht : falsy r.topic = false)
    (hu : falsy r.subtopic = false)
    (hmiss : mapGet cache (requestKey r) = none)
    (hfail : (∃ m, env.generate (explainPromptOf r) = .error m) ∨
      (∃ t m, env.generate (explainPromptOf r) = .ok t ∧
        env.parse t = .error m)) :
    (handleExplainConcept env cache r).cache = cache ∧
      mapGet (handleExplainConcept env cache r).cache (requestKey r) = none ∧
      ∃ m, (handleExplainConcept env cache r).resp =
        .genFailed "AI generation failed" m := by
  rcases hfail with ⟨m, hm⟩ | ⟨t, m, hgen, hp⟩
  · simp [handleExplainConcept, hs, ht, hu, hmiss, hm]
  · simp [handleExplainConcept, hs, ht, hu, hmiss, hgen, hp]

/-- Witness for C10 at a failing provider. -/
theorem C10_failure_leaves_cache_witness :
    (handleExplainConcept envFailW [] reqW).cache = [] ∧
      mapGet (handleExplainConcept envFailW [] reqW).cache (requestKey reqW) =
        none ∧
      ∃ m, (handleExplainConcept envFailW [] reqW).resp =
        .genFailed "AI generation failed" m :=
  C10_failure_leaves_cache envFailW [] reqW rfl rfl rfl rfl
    (Or.inl ⟨"boom", rfl⟩)

/-! ### Claims about the lesson endpoint -/

/-- Claim C4 (amended): for the `/api/lesson` handler of
`src/unnamed/part_000`, a request with an empty or absent prompt and an empty
or absent files list gets the 400 response and the provider is not called;
the `src/server.js` handler performs no such validation. -/
theorem C4_part000_empty_bad_request {α : Type} (env : LessonEnv α)
    (r : LessonReq)
    (hp : r.prompt = none ∨ r.prompt = some "")
    (hf : r.files = none ∨ r.files = some []) :
    handleLesson_part000 env r =
      (.badRequest "Either prompt or files must be provided", 0) := by
  have hpe : falsy r.prompt = true := by
    rcases hp with h | h <;> simp [h, falsy]
  have he : lessonReqEmpty r = true := by
    rcases hf with h | h <;> simp [lessonReqEmpty, hpe, h]
  simp [handleLesson_part000, he]

/-- Witness for C4 at the fully empty request. -/
theorem C4_part000_empty_bad_request_witness :
    handleLesson_part000 lessonEnvOk ⟨none, none⟩ =
      (.badRequest "Either prompt or files must be provided", 0) :=
  C4_part000_empty_bad_request lessonEnvOk ⟨none, none⟩ (Or.inl rfl)
    (Or.inl rfl)

/-- Counterexample to C4 as stated: the `src/server.js` `/api/lesson` handler
accepts the fully empty request, substitutes the default prompt, calls the
provider once and answers 200, instead of a 400 with no provider call. -/
theorem C4_server_skips_validation_cex :
    handleLesson_server lessonEnvOk ⟨none, none⟩ = (.ok 7, 1) ∧
      (handleLesson_server lessonEnvOk ⟨none, none⟩).2 ≠ 0 := by
  exact ⟨rfl, by decide⟩

/-- Claim C5 (amended): when the provider call fails, the `/api/lesson`
handlers of `src/server.js` and `src/unnamed/part_000` answer 500 with the
error text, the failure details, and the fixed request-independent
single-step fallback lesson; the `src/unnamed/part_001` handler returns only
the error and details. -/
theorem C5_provider_failure_fallback_lesson {α : Type} (env : LessonEnv α)
    (r : LessonReq) (msg : String)
    (hgen : env.generate (lessonParts serverDefaultPrompt r) = .error msg) :
    handleLesson_server env r =
        (.errFallback "Failed to generate lesson" msg fallbackLesson, 1) ∧
      (lessonReqEmpty r = false →
        handleLesson_part000 env r =
          (.errFallback "Failed to generate lesson" msg fallbackLesson, 1)) := by
  constructor
  · simp [handleLesson_server, hgen]
  · intro he
    simp [handleLesson_part000, he, hgen]

/-- Witness for C5 at a failing provider. -/
theorem C5_provider_failure_fallback_lesson_witness :
    handleLesson_server lessonEnvFail ⟨some "hi", none⟩ =
        (.errFallback "Failed to generate lesson" "boom" fallbackLesson, 1) ∧
      (lessonReqEmpty ⟨some "hi", none⟩ = false →
        handleLesson_part000 lessonEnvFail ⟨some "hi", none⟩ =
          (.errFallback "Failed to generate lesson" "boom" fallbackLesson, 1)) :=
  C5_provider_failure_fallback_lesson lessonEnvFail ⟨some "hi", none⟩ "boom" rfl

/-- Counterexample to C5 as stated: the `src/unnamed/part_001` `/api/lesson`
handler, cited by the claim, answers a provider failure with a 500 body that
carries only `error` and `details` and no `fallbackLesson` field. -/
theorem C5_part001_no_fallback_cex :
    handleLesson_part001 lessonEnvFail ⟨some "hi", none⟩ =
      (.errPlain "Failed to generate lesson" "boom", 1) := rfl

/-- Claim C6 (amended): for the `/api/lesson` handler of
`src/unnamed/part_000`, a provider response whose text fails to parse yields
the dedicated 500 invalid-format response, distinct from the provider-failure
response and carrying the raw provider text; in `src/server.js` a parse
failure falls into the same catch as a provider failure. -/
theorem C6_parse_failure_format_error {α : Type} (env : LessonEnv α)
    (r : LessonReq) (t msg : String)
    (hne : lessonReqEmpty r = false)
    (hgen : env.generate (lessonParts serverDefaultPrompt r) = .ok t)
    (hp : env.parse t = .error msg) :
    handleLesson_part000 env r =
      (.errFormat "Invalid response format from AI model" msg t, 1) := by
  simp [handleLesson_part000, hne, hgen, hp]

/-- Witness for C6 at a provider returning unparseable text. -/
theorem C6_parse_failure_format_error_witness :
    handleLesson_part000 lessonEnvBadParse ⟨some "hi", none⟩ =
      (.errFormat "Invalid response format from AI model" "Unexpected token"
        "not json", 1) :=
  C6_parse_failure_format_error lessonEnvBadParse ⟨some "hi", none⟩
    "not json" "Unexpected token" rfl rfl rfl

/-- Counterexample to C6 as stated: in the `src/server.js` handler, cited by
the claim, a parse failure produces the same generic fallback response as a
provider failure, with no raw provider text attached. -/
theorem C6_server_parse_collapse_cex :
    handleLesson_server lessonEnvBadParse ⟨some "hi", none⟩ =
      (.errFallback "Failed to generate lesson" "Unexpected token"
        fallbackLesson, 1) := rfl

/-! ### Claims about the text-to-speech endpoint -/

/-- Claim C7: when the primary neural synthesis errors or the 7-second timer
wins the race, and the secondary provider streams successfully, the handler
answers with the fallback audio under Content-Type audio/mpeg instead of
surfacing the primary failure. -/
theorem C7_tts_fallback_on_failure (env : TtsEnv) (t : String)
    (buf : List Nat) (hne : t ≠ "")
    (hprim : (∃ m, env.primary t = .failure m) ∨ env.primary t = .timedOut)
    (hfb : env.fallback t = .ok buf) :
    handleTts_server env (some t) = ⟨.audioStream "audio/mpeg" buf, 1, 1⟩ := by
  rcases hprim with ⟨m, hm⟩ | hm <;>
    simp [handleTts_server, hne, hm, hfb]

/-- Witness for C7 at a timed-out primary provider. -/
theorem C7_tts_fallback_on_failure_witness :
    handleTts_server ttsEnvTimedOut (some "Hello") =
      ⟨.audioStream "audio/mpeg" [1, 2, 3], 1, 1⟩ :=
  C7_tts_fallback_on_failure ttsEnvTimedOut "Hello" [1, 2, 3] (by decide)
    (Or.inr rfl) rfl

/-- Claim C8 (amended): in the `src/server.js` `/api/tts` handler, when the
primary provider fails or times out and the fallback also fails, the handler
answers 500 `TTS failed` after exactly one fallback attempt (no further
tier); the second variant in `src/unnamed/part_000` lacks the guard, so the
fallback failure escapes there without any response. -/
theorem C8_tts_both_fail_500 (env : TtsEnv) (t m₂ : String) (hne : t ≠ "")
    (hprim : (∃ m, env.primary t = .failure m) ∨ env.primary t = .timedOut)
    (hfb : env.fallback t = .error m₂) :
    handleTts_server env (some t) = ⟨.failed "TTS failed", 1, 1⟩ := by
  rcases hprim with ⟨m, hm⟩ | hm <;>
    simp [handleTts_server, hne, hm, hfb]

/-- Witness for C8 at both providers failing. -/
theorem C8_tts_both_fail_500_witness :
    handleTts_server ttsEnvBothFail (some "Hello") =
      ⟨.failed "TTS failed", 1, 1⟩ :=
  C8_tts_both_fail_500 ttsEnvBothFail "Hello" "gtts down" (by decide)
    (Or.inl ⟨"neural down", rfl⟩) rfl

/-- Counterexample to C8 as stated: in the second `/api/tts` variant of
`src/unnamed/part_000`, cited by the claim, a fallback failure after a
primary failure produces no response at all (the exception escapes), rather
than a 500. -/
theorem C8_part000b_unhandled_cex :
    handleTts_part000b ttsEnvBothFail (some "Hello") = ⟨none, 1, 1⟩ := rfl

end TutorApi
